import Mathlib

/-!
Verification of the minerve conversational tool-orchestration engine.

The definitions below are a shallow embedding of the Rust sources:
message model (`src/main.rs`, `src/chat.rs`), history compaction
(`Minerve::chat` in `src/minerve.rs` lines 443-452 and
`Minerve::chat_headless` lines 180-187), tool-argument decoding and
dispatch (`handle_tool_call` in `src/minerve.rs`), parameter access
(`ToolParams` in `src/tools/mod.rs`), the two revisions of shell-command
execution (`src/tools/run_shell_command_tool.rs` and
`src/tools/registry.rs`), the sub-agent tools
(`SubMinerveExecutorTool` / `SubMinerveQATool` in `src/tools/registry.rs`),
and the agent loops of `Minerve::chat` / `Minerve::chat_headless`.

External effects (the HTTP transport, the shell, the nested sub-agent run,
stdin) are passed in as explicit oracle functions; machine state that Rust
shares through `Arc` is threaded explicitly.
-/

namespace Minerve

/-- `ChatCompletionMessageRole` from `src/main.rs` / `src/chat.rs`. -/
inductive Role where
  | system
  | user
  | assistant
  | function
deriving DecidableEq, Repr

/-- `ChatCompletionFunctionCall` from `src/main.rs` / `src/chat.rs`. -/
structure FunctionCall where
  name : String
  arguments : String
deriving DecidableEq, Repr

/-- `ChatCompletionMessage` from `src/main.rs` / `src/chat.rs`. -/
structure Message where
  role : Role
  content : Option String
  name : Option String
  function_call : Option FunctionCall
  tool_call_id : Option String
  tool_calls : Option (List String)
deriving DecidableEq, Repr

/-- The fixed redaction marker written by the history compactor
(`src/minerve.rs` lines 184 and 449). -/
def cleanedMarker : String := "[cleaned from history]"

/-- The effect of one compaction iteration on one message: a Function-role
message has its `content` overwritten with the marker, any other message is
left alone (`src/minerve.rs` lines 448-450). -/
def cleanMessage (m : Message) : Message :=
  if m.role = Role.function then { m with content := some cleanedMarker } else m

/-- The compaction loop body: `for i in 0..(len - n)` rewrites the first
`k = len - n` entries through `cleanMessage`. -/
def cleanUpTo : Nat → List Message → List Message
  | _, [] => []
  | 0, ms => ms
  | Nat.succ k, m :: ms => cleanMessage m :: cleanUpTo k ms

/-- History compaction from `Minerve::chat` (`src/minerve.rs` lines
443-452, cutoff 30) and `Minerve::chat_headless` (lines 180-187,
cutoff 10), parametric in the cutoff `n`: if the sequence is longer than
`n`, every Function-role message at index `< length - n` has its content
replaced by `cleanedMarker`. -/
def cleanHistory (n : Nat) (history : List Message) : List Message :=
  if history.length > n then cleanUpTo (history.length - n) history else history

/-- A `serde_json::Value`; numbers are modeled as integers (the arguments
the engine decodes are integer-typed per the schema in
`Tool::function_definition`, `src/tools/mod.rs`). -/
inductive Json where
  | null
  | bool (b : Bool)
  | num (n : Int)
  | str (s : String)
  | arr (xs : List Json)
  | obj (fields : List (String × Json))

/-- Hexadecimal digit used by the JSON string escaper. -/
def hexDigit (n : Nat) : Char :=
  if n < 10 then Char.ofNat (48 + n) else Char.ofNat (87 + n)

/-- `serde_json` escaping of one character inside a JSON string. -/
def escapeJsonChar (c : Char) : String :=
  if c = '"' then "\\\""
  else if c = '\\' then "\\\\"
  else if c = '\n' then "\\n"
  else if c = '\r' then "\\r"
  else if c = '\t' then "\\t"
  else if c = Char.ofNat 8 then "\\b"
  else if c = Char.ofNat 12 then "\\f"
  else if c.toNat < 32 then
    "\\u00" ++ String.mk [hexDigit (c.toNat / 16), hexDigit (c.toNat % 16)]
  else String.singleton c

/-- `serde_json` escaping of a JSON string body. -/
def escapeJsonString (s : String) : String :=
  s.data.foldl (fun acc c => acc ++ escapeJsonChar c) ""

mutual

/-- `serde_json::Value::to_string()`: the compact JSON serialization. -/
def Json.render : Json → String
  | .null => "null"
  | .bool b => cond b "true" "false"
  | .num n => toString n
  | .str s => "\"" ++ escapeJsonString s ++ "\""
  | .arr xs => "[" ++ Json.renderArray xs ++ "]"
  | .obj fs => "\x7b" ++ Json.renderObject fs ++ "\x7d"

/-- Comma-separated serialization of a JSON array body. -/
def Json.renderArray : List Json → String
  | [] => ""
  | [x] => Json.render x
  | x :: y :: xs => Json.render x ++ "," ++ Json.renderArray (y :: xs)

/-- Comma-separated serialization of a JSON object body. -/
def Json.renderObject : List (String × Json) → String
  | [] => ""
  | [(k, v)] => "\"" ++ escapeJsonString k ++ "\":" ++ Json.render v
  | (k, v) :: f :: fs =>
    "\"" ++ escapeJsonString k ++ "\":" ++ Json.render v ++ ","
      ++ Json.renderObject (f :: fs)

end

/-- The per-value coercion in `handle_tool_call` (`src/minerve.rs` lines
44-50): a JSON string stays itself, numbers and booleans become their
string representation, anything else its JSON serialization. -/
def jsonValueToString : Json → String
  | .str s => s
  | .num n => toString n
  | .bool b => cond b "true" "false"
  | v => v.render

/-- Argument decoding in `handle_tool_call` (`src/minerve.rs` lines
40-55).  The result of `serde_json::from_str` on the raw payload is the
`Option Json` input (`none` = malformed JSON).  A JSON object becomes the
key-to-stringified-value mapping; anything else yields the empty
mapping. -/
def decodeArgs : Option Json → List (String × String)
  | some (.obj fields) => fields.map (fun kv => (kv.1, jsonValueToString kv.2))
  | _ => []

/-- `ToolParams` from `src/tools/mod.rs`; the `HashMap<String, String>` is
modeled as an association list with distinct keys. -/
structure ToolParams where
  args : List (String × String)

/-- `ToolParams::new`. -/
def ToolParams.new (args : List (String × String)) : ToolParams := ⟨args⟩

/-- The error text produced by `ToolParams::get_string`
(`src/tools/mod.rs` lines 57-62). -/
def requiredParamError (param : String) : String :=
  "[Error] Parameter '" ++ param ++ "' is required and must be a non-empty string."

/-- `ToolParams::get_string` (`src/tools/mod.rs` lines 52-63): the value
must be present and non-empty, otherwise the fixed error text is
returned. -/
def ToolParams.get_string (p : ToolParams) (param : String) :
    Except String String :=
  match (p.args.lookup param).filter (fun s => !s.isEmpty) with
  | some s => Except.ok s
  | none => Except.error (requiredParamError param)

/-- `ToolParams::get_string_optional` (`src/tools/mod.rs` lines 65-70):
the default is substituted only when the key is absent. -/
def ToolParams.get_string_optional (p : ToolParams) (param : String)
    (dflt : String) : String :=
  (p.args.lookup param).getD dflt

/-- `ExecuteCommandSettings` as declared in `src/tools/mod.rs`. -/
structure ExecuteCommandSettings where
  is_headless : Bool
deriving DecidableEq, Repr

/-- `Default for ExecuteCommandSettings` (`src/tools/mod.rs`). -/
def ExecuteCommandSettings.defaultSettings : ExecuteCommandSettings :=
  { is_headless := false }

/-- `ExecuteCommandSettings` in the `src/tools/registry.rs` revision,
which adds the shared `in_subminerve_context: Arc<AtomicBool>`; the field
here is the current value of that shared flag. -/
structure ExecuteCommandSettingsReg where
  is_headless : Bool
  in_subminerve_context : Bool
deriving DecidableEq, Repr

/-- The observable outcome of `std::process::Command::output()` for a
given command line, supplied as an oracle. -/
inductive ShellOutcome where
  | completed (success : Bool) (stdout stderr : String)
  | ioError (e : String)

/-- ASCII whitespace, for Rust's `str::trim` (the confirmation answers
the code compares against are ASCII). -/
def isAsciiWhitespace (c : Char) : Bool :=
  c = ' ' || c = '\t' || c = '\n' || c = '\r'

/-- Rust's `str::trim`: strip leading and trailing whitespace. -/
def rustTrim (s : String) : String :=
  String.mk
    (((s.data.dropWhile isAsciiWhitespace).reverse.dropWhile
        isAsciiWhitespace).reverse)

/-- ASCII lowercasing of one character, for Rust's
`str::to_lowercase` on the ASCII confirmation answers. -/
def asciiToLower (c : Char) : Char :=
  if 65 ≤ c.toNat ∧ c.toNat ≤ 90 then Char.ofNat (c.toNat + 32) else c

/-- Rust's `str::to_lowercase`. -/
def rustToLowercase (s : String) : String :=
  String.mk (s.data.map asciiToLower)

/-- `RunShellCommandTool::execute_command` from
`src/tools/run_shell_command_tool.rs` lines 45-77.  `stdinLine` is the
result of `io::stdin().read_line` (`Except.error` = read failure); the
returned Bool records whether the underlying shell command was actually
spawned. -/
def executeCommand (command : String) (settings : Option ExecuteCommandSettings)
    (stdinLine : Except Unit String) (shell : String → ShellOutcome) :
    String × Bool :=
  let settings := settings.getD ExecuteCommandSettings.defaultSettings
  let runIt : String × Bool :=
    (match shell command with
     | .completed true stdout _ => stdout
     | .completed false _ stderr => "[Error] " ++ stderr
     | .ioError e => "[Error] " ++ e, true)
  if settings.is_headless then
    match stdinLine with
    | .error _ => ("[Error] Failed to read user input", false)
    | .ok input =>
      let input := rustToLowercase (rustTrim input)
      if input ≠ "y" ∧ input ≠ "yes" then
        ("Command execution cancelled by user.", false)
      else runIt
  else runIt

/-- `RunShellCommandTool::execute_command` from `src/tools/registry.rs`
lines 500-545 (the streaming revision): the headless check is an empty
block (commands auto-execute with no confirmation), the process is
spawned unconditionally and its stdout lines are concatenated with
newlines.  `shellLines` is the stdout of the spawned process; UI echo via
`cb_sink` is display-only and omitted. -/
def executeCommandStreaming (command : String)
    (settings : Option ExecuteCommandSettingsReg)
    (shellLines : String → List String) : String × Bool :=
  let _settings := settings.getD { is_headless := false, in_subminerve_context := false }
  ((shellLines command).foldl (fun acc line => acc ++ line ++ "\n") "", true)

/-- `RunShellCommandTool::run_with_settings` from
`src/tools/run_shell_command_tool.rs` lines 32-43: a missing or empty
`command` parameter is reported as the returned output, without running
anything. -/
def RunShellCommandTool.run_with_settings (args : List (String × String))
    (settings : ExecuteCommandSettings) (stdinLine : Except Unit String)
    (shell : String → ShellOutcome) : String × Bool :=
  match (ToolParams.new args).get_string "command" with
  | .error e => (e, false)
  | .ok command => executeCommand command (some settings) stdinLine shell

/-- Result of one sub-agent-spawning tool call: the returned string, the
value of the shared `in_subminerve_context` flag after the call, and
whether the nested prompt was actually executed
(`run_headless_with_capture` reached). -/
structure SubagentOutcome where
  output : String
  flagAfter : Bool
  nestedRan : Bool
deriving DecidableEq, Repr

/-- `SubMinerveExecutorTool::run` from `src/tools/registry.rs` lines
686-726.  `settings.in_subminerve_context` is the value of the shared
atomic flag at entry; `runHeadlessWithCapture` is the nested headless
session (defined outside `src/`, its output is opaque here and it does
not receive the flag); `systemPrompt` is the compiled-in
`EXECUTOR_PROMPT.txt`.  The stream-sender plumbing only forwards UI
output and is omitted. -/
def SubMinerveExecutorTool.run (args : List (String × String))
    (settings : ExecuteCommandSettingsReg) (systemPrompt : String)
    (runHeadlessWithCapture : String → String) : SubagentOutcome :=
  if settings.in_subminerve_context then
    { output := "[Error] Subminerve executor cannot be nested within other subminerve tools",
      flagAfter := settings.in_subminerve_context, nestedRan := false }
  else
    match (ToolParams.new args).get_string "prompt" with
    | .error _ =>
      { output := "[Error] 'prompt' parameter is required.",
        flagAfter := settings.in_subminerve_context, nestedRan := false }
    | .ok prompt =>
      let output := runHeadlessWithCapture (systemPrompt ++ prompt)
      { output := "✅ Subminerve executor completed successfully with prompt: '"
          ++ prompt ++ "'.\nOutput:\n" ++ output,
        flagAfter := false, nestedRan := true }

/-- `SubMinerveQATool::run` from `src/tools/registry.rs` lines 746-787,
modeled exactly like `SubMinerveExecutorTool.run` with the QA texts and
the compiled-in `QA_PROMPT.txt`. -/
def SubMinerveQATool.run (args : List (String × String))
    (settings : ExecuteCommandSettingsReg) (systemPrompt : String)
    (runHeadlessWithCapture : String → String) : SubagentOutcome :=
  if settings.in_subminerve_context then
    { output := "[Error] Subminerve QA cannot be nested within other subminerve tools",
      flagAfter := settings.in_subminerve_context, nestedRan := false }
  else
    match (ToolParams.new args).get_string "prompt" with
    | .error _ =>
      { output := "[Error] 'prompt' parameter is required.",
        flagAfter := settings.in_subminerve_context, nestedRan := false }
    | .ok prompt =>
      let output := runHeadlessWithCapture (systemPrompt ++ prompt)
      { output := "✅ Subminerve QA completed successfully with prompt: '"
          ++ prompt ++ "'.\nOutput:\n" ++ output,
        flagAfter := false, nestedRan := true }

/-- The key set of `get_tool_registry` (`src/tools/registry.rs` lines
887-923), depending on the shared `in_subminerve_context` flag. -/
def registryToolNames (inSubminerveContext : Bool) : List String :=
  ["get_general_context", "search_for_string", "search_for_path_pattern",
   "list_files", "git_status", "read_notes", "append_note"]
  ++ (if inSubminerveContext then
        ["git_diff", "git_diff_cached", "show_file", "replace_content",
         "run_cargo_check"]
      else [])
  ++ (if !inSubminerveContext then
        ["subminerve_executor", "subminerve_qa", "run_shell_command"]
      else [])
  ++ ["create_file", "test_stream", "set_user_command"]

/-- `ToolCallResult` from `src/chat.rs`. -/
inductive ToolCallResult where
  | success (msg : Message)
  | cancelled
  | error (e : String)
deriving DecidableEq, Repr

/-- The Function-role message wrapped around a tool's output by
`handle_tool_call` (`src/minerve.rs` lines 101-108 and 142-149). -/
def functionResultMessage (toolName output : String) : Message :=
  { role := Role.function, content := some output, name := some toolName,
    function_call := none, tool_call_id := some toolName, tool_calls := none }

/-- `handle_tool_call` from `src/minerve.rs` lines 28-153.

Oracles: `parsedArgs` is `serde_json::from_str` on the raw argument
payload (`none` = malformed JSON); `cbSink` is whether a UI callback sink
was passed (interactive session); `confirm` is the value received from
the one-shot Yes/No confirmation channel (`none` = channel closed without
a value); `stdinLine` and `shell` feed `executeCommand`; `runTool` is the
output of any registered tool other than `run_shell_command` on the
decoded arguments.  `registry` is the key set of the tool registry.

Returns the dispatch outcome together with whether the invocation's
underlying shell command was spawned (always `false` on paths that never
reach `execute_command`). -/
def handleToolCall (registry : List String) (toolCall : FunctionCall)
    (parsedArgs : Option Json) (cbSink : Bool) (isHeadless : Bool)
    (confirm : Option Bool) (stdinLine : Except Unit String)
    (shell : String → ShellOutcome)
    (runTool : String → List (String × String) → String) :
    ToolCallResult × Bool :=
  if registry.contains toolCall.name then
    let args := decodeArgs parsedArgs
    if toolCall.name = "run_shell_command" ∧ cbSink then
      let command := (args.lookup "command").getD ""
      let confirmed := confirm.getD false
      if !confirmed then (ToolCallResult.cancelled, false)
      else
        let out := executeCommand command (some { is_headless := isHeadless })
          stdinLine shell
        (ToolCallResult.success (functionResultMessage toolCall.name out.1),
          out.2)
    else if toolCall.name = "run_shell_command" then
      let out := RunShellCommandTool.run_with_settings args
        { is_headless := isHeadless } stdinLine shell
      (ToolCallResult.success (functionResultMessage toolCall.name out.1),
        out.2)
    else
      (ToolCallResult.success
        (functionResultMessage toolCall.name (runTool toolCall.name args)),
        false)
  else
    (ToolCallResult.error ("Function '" ++ toolCall.name ++ "' not found"),
      false)

/-- The System message created in `Minerve::new` (`src/minerve.rs` lines
339-346). -/
def systemMsg (prompt : String) : Message :=
  { role := Role.system, content := some prompt, name := none,
    function_call := none, tool_call_id := none, tool_calls := none }

/-- The User message appended by `Minerve::chat` (`src/minerve.rs` lines
364-372). -/
def userMsg (input : String) : Message :=
  { role := Role.user, content := some input, name := none,
    function_call := none, tool_call_id := none, tool_calls := none }

/-- An Assistant message as pushed by the chat loops. -/
def assistantMsg (content : Option String) (fc : Option FunctionCall) :
    Message :=
  { role := Role.assistant, content := content, name := none,
    function_call := fc, tool_call_id := none, tool_calls := none }

/-- The outcome of one outbound chat-completion round trip, as observed by
the loops: the parsed first choice, a transport failure
(`reqwest` error), or a body that fails to parse
(`response.json::<ChatCompletionResponse>` error). -/
inductive ChatResponse where
  | ok (content : Option String) (function_call : Option FunctionCall)
  | requestError (e : String)
  | jsonError (e : String)

/-- The environment of oracles threaded through tool dispatch by the
loops (see `handleToolCall`). -/
structure DispatchEnv where
  registry : List String
  confirm : Option Bool
  stdinLine : Except Unit String
  shell : String → ShellOutcome
  runTool : String → List (String × String) → String
  parseJson : String → Option Json

/-- State of the interactive loop in `Minerve::chat` (`src/minerve.rs`
lines 413-596): `history` is the task-local request history, `store` the
shared `self.messages` sequence observed by the UI (the Message Store). -/
structure ChatState where
  history : List Message
  store : List Message
deriving DecidableEq, Repr

/-- One iteration of the interactive loop body of `Minerve::chat`
(`src/minerve.rs` lines 427-582) given the round trip's outcome; returns
the new state and the `should_continue` flag.  The request itself is built
from `cleanHistory 30 history` (lines 443-462) which does not change the
state; UI redraws are omitted.  `is_headless` is false in this loop's
dispatches (`cb_sink` is passed). -/
def chatStep (env : DispatchEnv) (r : ChatResponse) (st : ChatState) :
    ChatState × Bool :=
  match r with
  | .requestError e =>
    ({ st with store :=
        st.store ++ [assistantMsg (some ("Request Error: " ++ e)) none] },
      false)
  | .jsonError e =>
    ({ st with store :=
        st.store ++ [assistantMsg (some ("JSON Error: " ++ e)) none] },
      false)
  | .ok content fc =>
    let history := st.history ++ [assistantMsg content fc]
    let store := st.store ++
      (match content with
       | some c => [assistantMsg (some c) none]
       | none => [])
    match fc with
    | none => (⟨history, store⟩, false)
    | some f =>
      let res := handleToolCall env.registry f (env.parseJson f.arguments)
        true false env.confirm env.stdinLine env.shell env.runTool
      match res.1 with
      | .cancelled => (⟨history, store⟩, false)
      | .success msg =>
        (⟨history ++ [msg],
          if msg.content.isSome then store ++ [msg] else store⟩, true)
      | .error err =>
        (⟨history,
          store ++ [assistantMsg
            (some ("Error occurred in tool call: " ++ err)) none]⟩, false)

/-- The interactive `while should_continue` loop of `Minerve::chat`,
driven by a script of round-trip outcomes; returns the final state and
the number of round trips performed.  (The HTTP call always yields an
outcome, so scripts are taken long enough; an exhausted script stops the
loop.) -/
def chatLoop (env : DispatchEnv) :
    List ChatResponse → ChatState → ChatState × Nat
  | [], st => (st, 0)
  | r :: rest, st =>
    let step := chatStep env r st
    if step.2 then
      let next := chatLoop env rest step.1
      (next.1, next.2 + 1)
    else (step.1, 1)

/-- State of the headless loop in `Minerve::chat_headless`
(`src/minerve.rs` lines 156-290) with `capture_output = true` (as used by
the sub-agent tools): the request history, and the captured output
buffer. -/
structure HeadlessState where
  history : List Message
  outputBuffer : List String
deriving DecidableEq, Repr

/-- One iteration of the headless loop body of `Minerve::chat_headless`
(`src/minerve.rs` lines 177-283): the canonical history is compacted in
place with cutoff 10 at the start of every iteration; tool dispatch
passes no `cb_sink` and `is_headless = true`. -/
def headlessStep (env : DispatchEnv) (r : ChatResponse)
    (st : HeadlessState) : HeadlessState × Bool :=
  let history := cleanHistory 10 st.history
  match r with
  | .requestError e =>
    (⟨history, st.outputBuffer ++ ["Request Error: " ++ e]⟩, false)
  | .jsonError e =>
    (⟨history, st.outputBuffer ++ ["JSON Error: " ++ e]⟩, false)
  | .ok content fc =>
    let history := history ++ [assistantMsg content fc]
    let buf := st.outputBuffer ++
      (match content with
       | some c => [c]
       | none => [])
    match fc with
    | none => (⟨history, buf⟩, false)
    | some f =>
      let res := handleToolCall env.registry f (env.parseJson f.arguments)
        false true env.confirm env.stdinLine env.shell env.runTool
      match res.1 with
      | .success msg => (⟨history ++ [msg], buf⟩, true)
      | .cancelled => (⟨history, buf⟩, false)
      | .error err =>
        (⟨history, buf ++ ["Error occurred in tool call: " ++ err]⟩, false)

/-- The headless `while should_continue` loop of
`Minerve::chat_headless`, driven by a script of round-trip outcomes;
returns the final state and the number of round trips performed. -/
def headlessLoop (env : DispatchEnv) :
    List ChatResponse → HeadlessState → HeadlessState × Nat
  | [], st => (st, 0)
  | r :: rest, st =>
    let step := headlessStep env r st
    if step.2 then
      let next := headlessLoop env rest step.1
      (next.1, next.2 + 1)
    else (step.1, 1)

/-- Concrete environment for the multi-round scenario: the top-level
registry, the stubbed `list_files` tool returning two file names, and a
parser for the empty-object argument payload. -/
def scenarioEnv : DispatchEnv :=
  { registry := registryToolNames false
    confirm := some true
    stdinLine := Except.ok "y"
    shell := fun _ => ShellOutcome.completed true "" ""
    runTool := fun _ _ => "a.txt\nb.txt"
    parseJson := fun s => if s = "\x7b\x7d" then some (Json.obj []) else none }

/-- The scripted responder of the multi-round scenario: first an
assistant message carrying a `list_files` invocation (with the given
content), then a plain assistant message. -/
def scenarioScript (c : Option String) : List ChatResponse :=
  [ChatResponse.ok c (some ⟨"list_files", "\x7b\x7d"⟩),
   ChatResponse.ok (some "Found 2 files: a.txt, b.txt") none]

/-- Initial state of the multi-round scenario: System then User, in both
the request history and the shared store. -/
def scenarioInit : ChatState :=
  ⟨[systemMsg "sys", userMsg "show me the repo files"],
   [systemMsg "sys", userMsg "show me the repo files"]⟩

theorem cleanUpTo_length (k : Nat) (l : List Message) :
    (cleanUpTo k l).length = l.length := by
  induction l generalizing k with
  | nil => cases k <;> rfl
  | cons m ms ih =>
    cases k with
    | zero => rfl
    | succ k => simpa [cleanUpTo] using ih k

theorem cleanUpTo_getElem? (k : Nat) (l : List Message) (i : Nat) :
    (cleanUpTo k l)[i]? =
      (l[i]?).map (fun m => if i < k then cleanMessage m else m) := by
  induction l generalizing k i with
  | nil => cases k <;> rfl
  | cons m ms ih =>
    cases k with
    | zero =>
      simp only [cleanUpTo, Nat.not_lt_zero, if_false]
      cases (m :: ms)[i]? <;> rfl
    | succ k =>
      cases i with
      | zero => simp [cleanUpTo]
      | succ i =>
        simp only [cleanUpTo, List.getElem?_cons_succ, ih k i,
          Nat.succ_lt_succ_iff]

theorem cleanMessage_role (m : Message) :
    (cleanMessage m).role = m.role := by
  unfold cleanMessage
  split <;> rfl

theorem cleanMessage_idem (m : Message) :
    cleanMessage (cleanMessage m) = cleanMessage m := by
  unfold cleanMessage
  split <;> simp_all

theorem cleanHistory_length (n : Nat) (msgs : List Message) :
    (cleanHistory n msgs).length = msgs.length := by
  unfold cleanHistory
  split
  · exact cleanUpTo_length _ _
  · rfl

/-- C3. History compaction correctness: compaction preserves the length;
pointwise, a message is rewritten to the marker-content version exactly
when the sequence is longer than the cutoff, its index is below
`length - n`, and its role is Function, and is left unchanged otherwise;
roles are preserved at every position; and a sequence of length at most
the cutoff is returned unchanged. -/
theorem compaction_spec (n : Nat) (msgs : List Message) :
    (cleanHistory n msgs).length = msgs.length
    ∧ (∀ i : Nat, (cleanHistory n msgs)[i]? =
        (msgs[i]?).map (fun m =>
          if n < msgs.length ∧ i < msgs.length - n ∧ m.role = Role.function
          then { m with content := some cleanedMarker } else m))
    ∧ (∀ i : Nat,
        ((cleanHistory n msgs)[i]?).map Message.role =
          (msgs[i]?).map Message.role)
    ∧ (msgs.length ≤ n → cleanHistory n msgs = msgs) := by
  have hpoint : ∀ i : Nat, (cleanHistory n msgs)[i]? =
      (msgs[i]?).map (fun m =>
        if n < msgs.length ∧ i < msgs.length - n ∧ m.role = Role.function
        then { m with content := some cleanedMarker } else m) := by
    intro i
    unfold cleanHistory
    by_cases h : msgs.length > n
    · rw [if_pos h, cleanUpTo_getElem?]
      cases hx : msgs[i]? with
      | none => rfl
      | some m =>
        simp only [Option.map_some']
        by_cases hi : i < msgs.length - n
        · rw [if_pos hi]
          unfold cleanMessage
          by_cases hr : m.role = Role.function
          · rw [if_pos hr, if_pos ⟨h, hi, hr⟩]
          · rw [if_neg hr, if_neg (fun hc => hr hc.2.2)]
        · rw [if_neg hi, if_neg (fun hc => hi hc.2.1)]
    · rw [if_neg h]
      cases hx : msgs[i]? with
      | none => rfl
      | some m =>
        rw [Option.map_some', if_neg (fun hc => h hc.1)]
  refine ⟨cleanHistory_length n msgs, hpoint, ?_, ?_⟩
  · intro i
    rw [hpoint i]
    cases msgs[i]? with
    | none => rfl
    | some m =>
      simp only [Option.map_some', Option.some.injEq]
      split <;> rfl
  · intro hle
    unfold cleanHistory
    rw [if_neg (by omega)]

/-- Witness for C3 at a concrete input: a four-message history with
cutoff 2 keeps its length, rewrites the old Function message at index 1,
and a history of length at most the cutoff is unchanged. -/
theorem compaction_spec_witness :
    (cleanHistory 2 [⟨Role.system, some "s", none, none, none, none⟩,
        ⟨Role.function, some "big tool output", some "t", none, some "t", none⟩,
        ⟨Role.user, some "u", none, none, none, none⟩,
        ⟨Role.assistant, some "a", none, none, none, none⟩]).length = 4
    ∧ (cleanHistory 2 [⟨Role.system, some "s", none, none, none, none⟩,
        ⟨Role.function, some "big tool output", some "t", none, some "t", none⟩,
        ⟨Role.user, some "u", none, none, none, none⟩,
        ⟨Role.assistant, some "a", none, none, none, none⟩])[1]? =
        some ⟨Role.function, some cleanedMarker, some "t", none, some "t", none⟩
    ∧ cleanHistory 4 [⟨Role.user, some "u", none, none, none, none⟩] =
        [⟨Role.user, some "u", none, none, none, none⟩] := by
  have h := compaction_spec 2
    [⟨Role.system, some "s", none, none, none, none⟩,
     ⟨Role.function, some "big tool output", some "t", none, some "t", none⟩,
     ⟨Role.user, some "u", none, none, none, none⟩,
     ⟨Role.assistant, some "a", none, none, none, none⟩]
  have h2 := compaction_spec 4 [⟨Role.user, some "u", none, none, none, none⟩]
  refine ⟨h.1, ?_, h2.2.2.2 (by decide)⟩
  rw [h.2.1 1]
  decide

theorem cleanUpTo_idem (k : Nat) (l : List Message) :
    cleanUpTo k (cleanUpTo k l) = cleanUpTo k l := by
  induction l generalizing k with
  | nil => cases k <;> rfl
  | cons m ms ih =>
    cases k with
    | zero => rfl
    | succ k => simp [cleanUpTo, cleanMessage_idem, ih k]

/-- C4. History compaction idempotence: applying the compaction step twice
yields exactly the same sequence as applying it once. -/
theorem compaction_idempotent (n : Nat) (msgs : List Message) :
    cleanHistory n (cleanHistory n msgs) = cleanHistory n msgs := by
  by_cases h : msgs.length > n
  · have h1 : cleanHistory n msgs = cleanUpTo (msgs.length - n) msgs := by
      unfold cleanHistory
      rw [if_pos h]
    rw [h1]
    unfold cleanHistory
    rw [cleanUpTo_length, if_pos h]
    exact cleanUpTo_idem _ _
  · have h1 : cleanHistory n msgs = msgs := by
      unfold cleanHistory
      rw [if_neg h]
    rw [h1, h1]

/-- C1 counterexample: calling `subminerve_executor` with a well-formed
prompt while the shared flag is already true returns the recursion error
and does not run the nested prompt, but the flag is still true — not
false — after the call returns, refuting the claim's "after any such tool
call returns ... the flag is false again" on the recursion-violation
error path. -/
theorem recursion_guard_flag_not_cleared :
    (SubMinerveExecutorTool.run [("prompt", "tidy the code")]
        { is_headless := true, in_subminerve_context := true } "sys"
        (fun _ => "nested output")).nestedRan = false
    ∧ (SubMinerveExecutorTool.run [("prompt", "tidy the code")]
        { is_headless := true, in_subminerve_context := true } "sys"
        (fun _ => "nested output")).output =
        "[Error] Subminerve executor cannot be nested within other subminerve tools"
    ∧ ¬ ((SubMinerveExecutorTool.run [("prompt", "tidy the code")]
        { is_headless := true, in_subminerve_context := true } "sys"
        (fun _ => "nested output")).flagAfter = false) := by
  refine ⟨rfl, rfl, ?_⟩
  decide

/-- C1 (amended). Recursion guard: if the shared in-subminerve flag is
true at entry, both sub-agent tools return an error and do not execute
the nested prompt, leaving the flag unchanged (still true, held by the
outer call); on every path of a call that found the flag clear — success
or missing-prompt error — the flag is false again after the call
returns.  Equivalently, the flag after the call equals the flag at
entry. -/
theorem recursion_guard_amended (args : List (String × String))
    (settings : ExecuteCommandSettingsReg) (sys : String)
    (nested : String → String) :
    (settings.in_subminerve_context = true →
      (SubMinerveExecutorTool.run args settings sys nested).output =
        "[Error] Subminerve executor cannot be nested within other subminerve tools"
      ∧ (SubMinerveExecutorTool.run args settings sys nested).nestedRan = false
      ∧ (SubMinerveQATool.run args settings sys nested).output =
        "[Error] Subminerve QA cannot be nested within other subminerve tools"
      ∧ (SubMinerveQATool.run args settings sys nested).nestedRan = false)
    ∧ (SubMinerveExecutorTool.run args settings sys nested).flagAfter =
        settings.in_subminerve_context
    ∧ (SubMinerveQATool.run args settings sys nested).flagAfter =
        settings.in_subminerve_context := by
  cases hs : settings.in_subminerve_context <;>
    cases hps : (ToolParams.new args).get_string "prompt" <;>
      simp [SubMinerveExecutorTool.run, SubMinerveQATool.run, hs, hps]

/-- Witness for C1 (amended) at concrete inputs: with the flag set the QA
tool returns its recursion error, and with the flag clear the executor
tool finishes with the flag false again. -/
theorem recursion_guard_amended_witness :
    (SubMinerveQATool.run [("prompt", "check the tests")]
      { is_headless := true, in_subminerve_context := true } "q"
      (fun _ => "o")).output =
      "[Error] Subminerve QA cannot be nested within other subminerve tools"
    ∧ (SubMinerveExecutorTool.run [("prompt", "check the tests")]
      { is_headless := true, in_subminerve_context := false } "q"
      (fun _ => "o")).flagAfter = false := by
  have h := recursion_guard_amended [("prompt", "check the tests")]
    { is_headless := true, in_subminerve_context := true } "q" (fun _ => "o")
  have h2 := recursion_guard_amended [("prompt", "check the tests")]
    { is_headless := true, in_subminerve_context := false } "q" (fun _ => "o")
  exact ⟨(h.1 rfl).2.2.1, h2.2.1⟩

/-- C2. Confirmation denial: dispatching `run_shell_command` in an
interactive session (a UI callback sink is present) with the confirmation
gate answering `false`, or with the confirmation channel closed without a
value, returns `Cancelled` and the underlying shell command is never
spawned. -/
theorem confirmation_denial (registry : List String)
    (toolCall : FunctionCall) (parsedArgs : Option Json) (isHeadless : Bool)
    (confirm : Option Bool) (stdinLine : Except Unit String)
    (shell : String → ShellOutcome)
    (runTool : String → List (String × String) → String)
    (hname : toolCall.name = "run_shell_command")
    (hreg : registry.contains toolCall.name = true)
    (hconfirm : confirm = some false ∨ confirm = none) :
    handleToolCall registry toolCall parsedArgs true isHeadless confirm
      stdinLine shell runTool = (ToolCallResult.cancelled, false) := by
  have hmem : toolCall.name ∈ registry := by simpa using hreg
  have hmem2 : "run_shell_command" ∈ registry := hname ▸ hmem
  have hc : confirm.getD false = false := by
    rcases hconfirm with h | h <;> simp [h]
  simp [handleToolCall, hmem, hmem2, hname, hc]

/-- Witness for C2 at a concrete input: a denied `rm` command in the
top-level registry is cancelled without execution. -/
theorem confirmation_denial_witness :
    handleToolCall (registryToolNames false)
      ⟨"run_shell_command", "\x7b\"command\":\"rm -rf /tmp/x\"\x7d"⟩
      (some (Json.obj [("command", Json.str "rm -rf /tmp/x")])) true false
      (some false) (Except.ok "y")
      (fun _ => ShellOutcome.completed true "" "") (fun _ _ => "") =
      (ToolCallResult.cancelled, false) :=
  confirmation_denial _ _ _ _ _ _ _ _ rfl (by decide) (Or.inl rfl)

/-- C7. Argument decoding: a malformed payload or any non-object JSON
value yields the empty argument mapping; a JSON object is mapped
key-by-key with numbers and booleans coerced to their string
representation (strings staying themselves); and dispatching a
registered (non-shell) tool on a malformed payload does not fail — the
tool runs on the empty mapping and its output is wrapped in `Success`. -/
theorem argument_decoding :
    decodeArgs none = []
    ∧ decodeArgs (some Json.null) = []
    ∧ (∀ b, decodeArgs (some (Json.bool b)) = [])
    ∧ (∀ n, decodeArgs (some (Json.num n)) = [])
    ∧ (∀ s, decodeArgs (some (Json.str s)) = [])
    ∧ (∀ xs, decodeArgs (some (Json.arr xs)) = [])
    ∧ (∀ fields, decodeArgs (some (Json.obj fields)) =
        fields.map (fun kv => (kv.1, jsonValueToString kv.2)))
    ∧ (∀ n : Int, jsonValueToString (Json.num n) = toString n)
    ∧ (∀ b : Bool, jsonValueToString (Json.bool b) = cond b "true" "false")
    ∧ (∀ s : String, jsonValueToString (Json.str s) = s)
    ∧ (∀ (registry : List String) (toolCall : FunctionCall)
        (cbSink isHeadless : Bool) (confirm : Option Bool)
        (stdinLine : Except Unit String) (shell : String → ShellOutcome)
        (runTool : String → List (String × String) → String),
        registry.contains toolCall.name = true →
        toolCall.name ≠ "run_shell_command" →
        handleToolCall registry toolCall none cbSink isHeadless confirm
          stdinLine shell runTool =
          (ToolCallResult.success
            (functionResultMessage toolCall.name (runTool toolCall.name [])),
            false)) := by
  refine ⟨rfl, rfl, fun b => rfl, fun n => rfl, fun s => rfl, fun xs => rfl,
    fun fields => rfl, fun n => rfl, fun b => rfl, fun s => rfl, ?_⟩
  intro registry toolCall cbSink isHeadless confirm stdinLine shell runTool
    hreg hname
  have hmem : toolCall.name ∈ registry := by simpa using hreg
  simp [handleToolCall, hmem, hname, decodeArgs]

/-- Witness for C7 at concrete inputs: a non-object payload decodes to
the empty mapping, and `list_files` dispatched on a malformed payload
succeeds on the empty mapping. -/
theorem argument_decoding_witness :
    decodeArgs (some (Json.str "not an object")) = []
    ∧ handleToolCall (registryToolNames false) ⟨"list_files", "not json"⟩
        none false true none (Except.ok "")
        (fun _ => ShellOutcome.completed true "" "") (fun _ _ => "a.txt") =
        (ToolCallResult.success (functionResultMessage "list_files" "a.txt"),
          false) := by
  refine ⟨argument_decoding.2.2.2.2.1 "not an object", ?_⟩
  exact argument_decoding.2.2.2.2.2.2.2.2.2.2 (registryToolNames false)
    ⟨"list_files", "not json"⟩ false true none (Except.ok "")
    (fun _ => ShellOutcome.completed true "" "") (fun _ _ => "a.txt")
    (by decide) (by decide)

/-- C8. Unknown tool: dispatching an invocation whose name is not a
registry key returns the `Error` outcome whose text contains the
requested name, and no tool is executed. -/
theorem unknown_tool (registry : List String) (toolCall : FunctionCall)
    (parsedArgs : Option Json) (cbSink isHeadless : Bool)
    (confirm : Option Bool) (stdinLine : Except Unit String)
    (shell : String → ShellOutcome)
    (runTool : String → List (String × String) → String)
    (hreg : registry.contains toolCall.name = false) :
    handleToolCall registry toolCall parsedArgs cbSink isHeadless confirm
      stdinLine shell runTool =
      (ToolCallResult.error ("Function '" ++ toolCall.name ++ "' not found"),
        false)
    ∧ ∃ pre post, "Function '" ++ toolCall.name ++ "' not found" =
        pre ++ toolCall.name ++ post := by
  have hmem : toolCall.name ∉ registry := by simpa using hreg
  refine ⟨?_, "Function '", "' not found", rfl⟩
  simp [handleToolCall, hmem]

/-- Witness for C8 at a concrete input: `does_not_exist` is not in the
top-level registry and dispatch returns the not-found error. -/
theorem unknown_tool_witness :
    handleToolCall (registryToolNames false) ⟨"does_not_exist", "\x7b\x7d"⟩
      (some (Json.obj [])) true false none (Except.ok "")
      (fun _ => ShellOutcome.completed true "" "") (fun _ _ => "") =
      (ToolCallResult.error
        ("Function '" ++ "does_not_exist" ++ "' not found"), false) :=
  (unknown_tool _ _ _ _ _ _ _ _ _ (by decide)).1

/-- C9 counterexample: in the `src/tools/registry.rs` revision of
`RunShellCommandTool::execute_command`, a headless call spawns the
command unconditionally — no textual yes/no answer is consulted at all —
refuting "the command runs only after an affirmative textual answer" for
that revision. -/
theorem headless_autoexec_counterexample :
    executeCommandStreaming "echo hi"
      (some { is_headless := true, in_subminerve_context := false })
      (fun _ => ["hi"]) = ("hi\n", true) := rfl

/-- C9 (amended). Headless confirmation policy: in the
`src/tools/run_shell_command_tool.rs` revision, a headless call prompts
for a textual yes/no answer and runs the command only after an
affirmative ("y"/"yes", trimmed and lowercased) answer, returning the
cancellation or read-failure text otherwise; in the
`src/tools/registry.rs` revision, the headless branch is a no-op and the
command is always executed without any confirmation. -/
theorem headless_confirmation_amended (command : String)
    (stdin : Except Unit String) (shell : String → ShellOutcome) :
    (stdin = Except.error () →
      executeCommand command (some { is_headless := true }) stdin shell =
        ("[Error] Failed to read user input", false))
    ∧ (∀ input, stdin = Except.ok input →
        rustToLowercase (rustTrim input) ≠ "y" →
        rustToLowercase (rustTrim input) ≠ "yes" →
        executeCommand command (some { is_headless := true }) stdin shell =
          ("Command execution cancelled by user.", false))
    ∧ (∀ input, stdin = Except.ok input →
        (rustToLowercase (rustTrim input) = "y" ∨
          rustToLowercase (rustTrim input) = "yes") →
        (executeCommand command (some { is_headless := true }) stdin
          shell).2 = true)
    ∧ (∀ settings shellLines,
        (executeCommandStreaming command settings shellLines).2 = true) := by
  refine ⟨?_, ?_, ?_, ?_⟩
  · intro h
    subst h
    rfl
  · intro input h h1 h2
    subst h
    simp [executeCommand, h1, h2]
  · intro input h hor
    subst h
    rcases hor with h1 | h1 <;> simp [executeCommand, h1]
  · intro settings shellLines
    rfl

/-- Witness for C9 (amended) at concrete inputs: answering "no" cancels
without running, answering " YES " (trimmed, lowercased) runs the
command. -/
theorem headless_confirmation_amended_witness :
    executeCommand "ls" (some { is_headless := true }) (Except.ok "no")
      (fun _ => ShellOutcome.completed true "files" "") =
      ("Command execution cancelled by user.", false)
    ∧ (executeCommand "ls" (some { is_headless := true })
        (Except.ok " YES ")
        (fun _ => ShellOutcome.completed true "files" "")).2 = true := by
  have h := headless_confirmation_amended "ls" (Except.ok "no")
    (fun _ => ShellOutcome.completed true "files" "")
  have h2 := headless_confirmation_amended "ls" (Except.ok " YES ")
    (fun _ => ShellOutcome.completed true "files" "")
  exact ⟨h.2.1 "no" rfl (by decide) (by decide),
    h2.2.2.1 " YES " rfl (Or.inr (by decide))⟩

/-- C10. Empty string counts as missing: `ToolParams::get_string` rejects
a present-but-empty value exactly like an absent key, with the fixed
"required and must be a non-empty string" error; `get_string_optional`
substitutes its default only for an absent key and returns a present
empty string as-is; and the `get_string` error becomes the tool's output
(`run_with_settings` returns it without running anything). -/
theorem get_string_spec (args : List (String × String)) (param dflt : String) :
    (args.lookup param = some "" →
      (ToolParams.new args).get_string param =
        Except.error (requiredParamError param)
      ∧ (ToolParams.new args).get_string_optional param dflt = "")
    ∧ (args.lookup param = none →
      (ToolParams.new args).get_string param =
        Except.error (requiredParamError param)
      ∧ (ToolParams.new args).get_string_optional param dflt = dflt)
    ∧ (∀ s, args.lookup param = some s → s ≠ "" →
      (ToolParams.new args).get_string param = Except.ok s
      ∧ (ToolParams.new args).get_string_optional param dflt = s)
    ∧ (args.lookup "command" = some "" →
      ∀ settings stdinLine shell,
        RunShellCommandTool.run_with_settings args settings stdinLine shell =
          (requiredParamError "command", false)) := by
  refine ⟨?_, ?_, ?_, ?_⟩
  · intro h
    refine ⟨?_, ?_⟩
    · simp only [ToolParams.get_string, ToolParams.new]
      rw [h]
      rfl
    · simp only [ToolParams.get_string_optional, ToolParams.new]
      rw [h]
      rfl
  · intro h
    refine ⟨?_, ?_⟩
    · simp only [ToolParams.get_string, ToolParams.new]
      rw [h]
      rfl
    · simp only [ToolParams.get_string_optional, ToolParams.new]
      rw [h]
      rfl
  · intro s h hs
    have hf : s.isEmpty = false := by
      rcases Bool.eq_false_or_eq_true s.isEmpty with hb | hb
      · exact absurd ((String.isEmpty_iff s).mp hb) hs
      · exact hb
    refine ⟨?_, ?_⟩
    · simp only [ToolParams.get_string, ToolParams.new]
      rw [h]
      simp [Option.filter, hf]
    · simp only [ToolParams.get_string_optional, ToolParams.new]
      rw [h]
      rfl
  · intro h settings stdinLine shell
    simp only [RunShellCommandTool.run_with_settings, ToolParams.get_string,
      ToolParams.new]
    rw [h]
    rfl

/-- Witness for C10 at concrete inputs: a present empty `command` is
rejected like a missing one and surfaces as the tool output, while
`get_string_optional` keeps a present empty string and defaults only an
absent key. -/
theorem get_string_spec_witness :
    (ToolParams.new [("command", "")]).get_string "command" =
      Except.error (requiredParamError "command")
    ∧ (ToolParams.new [("command", "")]).get_string_optional "command" "." = ""
    ∧ (ToolParams.new []).get_string_optional "dir" "." = "."
    ∧ RunShellCommandTool.run_with_settings [("command", "")]
        { is_headless := false } (Except.ok "")
        (fun _ => ShellOutcome.completed true "" "") =
        (requiredParamError "command", false) := by
  have h := get_string_spec [("command", "")] "command" "."
  have h2 := get_string_spec ([] : List (String × String)) "dir" "."
  exact ⟨(h.1 rfl).1, (h.1 rfl).2, (h2.2.1 rfl).2, h.2.2.2 rfl _ _ _⟩

/-- C5 counterexample: running the scripted multi-round scenario with an
invocation-carrying assistant message whose content is absent performs
two round trips, but the shared Message Store afterwards holds only four
messages — System, User, Function, Assistant — with no
invocation-carrying Assistant message between User and the Function
result, refuting the claimed five-message store sequence. -/
theorem multi_round_store_counterexample :
    (chatLoop scenarioEnv (scenarioScript none) scenarioInit).2 = 2
    ∧ ((chatLoop scenarioEnv (scenarioScript none) scenarioInit).1.store.map
        Message.role) = [Role.system, Role.user, Role.function, Role.assistant]
    ∧ ((chatLoop scenarioEnv (scenarioScript none) scenarioInit).1.store.map
        Message.role) ≠
        [Role.system, Role.user, Role.assistant, Role.function,
         Role.assistant] := by
  refine ⟨rfl, by decide, by decide⟩

/-- C5 (amended). Multi-round scenario: the scripted responder
[`list_files` invocation, plain message] drives exactly two round trips;
the request history afterwards is exactly System, User, Assistant
carrying the invocation (content may be absent), the Function-role tool
result, final Assistant; the shared Message Store holds the same
sequence except that the invocation-carrying Assistant appears only when
its content is present, and its stored copy carries no invocation. -/
theorem multi_round_scenario_amended (c : Option String) :
    (chatLoop scenarioEnv (scenarioScript c) scenarioInit).2 = 2
    ∧ (chatLoop scenarioEnv (scenarioScript c) scenarioInit).1.history =
        [systemMsg "sys", userMsg "show me the repo files",
         assistantMsg c (some ⟨"list_files", "\x7b\x7d"⟩),
         functionResultMessage "list_files" "a.txt\nb.txt",
         assistantMsg (some "Found 2 files: a.txt, b.txt") none]
    ∧ (chatLoop scenarioEnv (scenarioScript c) scenarioInit).1.store =
        [systemMsg "sys", userMsg "show me the repo files"]
        ++ (match c with
            | some cc => [assistantMsg (some cc) none]
            | none => [])
        ++ [functionResultMessage "list_files" "a.txt\nb.txt",
            assistantMsg (some "Found 2 files: a.txt, b.txt") none] := by
  cases c <;> exact ⟨rfl, rfl, rfl⟩

/-- C6 counterexample: a transport failure in the headless loop ends the
run after one round trip with the error text pushed to the captured
output buffer, while the conversation history is left exactly as it was
— no synthetic Assistant-role message describing the error is appended
to it, refuting the claim for the headless orchestrator. -/
theorem transport_error_headless_counterexample :
    headlessLoop scenarioEnv [ChatResponse.requestError "connection refused"]
      ⟨[systemMsg "sys", userMsg "hello"], []⟩ =
      (⟨[systemMsg "sys", userMsg "hello"],
        ["Request Error: connection refused"]⟩, 1)
    ∧ ((headlessLoop scenarioEnv
        [ChatResponse.requestError "connection refused"]
        ⟨[systemMsg "sys", userMsg "hello"], []⟩).1.history.map
          Message.role) = [Role.system, Role.user] := ⟨rfl, rfl⟩

/-- C6 (amended). Transport and protocol failure handling: in the
interactive loop, a transport failure or an unparseable response body
appends one synthetic Assistant-role message describing the error to the
shared Message Store, terminates the loop after that single round trip,
and performs no retry (the rest of the script is never consumed); in the
headless loop, the same failures terminate the loop with no retry, but
the error text is recorded in the captured output buffer and the message
history is left as the compacted history, with no message appended. -/
theorem transport_error_amended (e : String) (rest : List ChatResponse)
    (st : ChatState) (hst : HeadlessState) (env : DispatchEnv) :
    chatLoop env (ChatResponse.requestError e :: rest) st =
      ({ st with store := st.store ++
          [assistantMsg (some ("Request Error: " ++ e)) none] }, 1)
    ∧ chatLoop env (ChatResponse.jsonError e :: rest) st =
      ({ st with store := st.store ++
          [assistantMsg (some ("JSON Error: " ++ e)) none] }, 1)
    ∧ headlessLoop env (ChatResponse.requestError e :: rest) hst =
      (⟨cleanHistory 10 hst.history,
        hst.outputBuffer ++ ["Request Error: " ++ e]⟩, 1)
    ∧ headlessLoop env (ChatResponse.jsonError e :: rest) hst =
      (⟨cleanHistory 10 hst.history,
        hst.outputBuffer ++ ["JSON Error: " ++ e]⟩, 1) := by
  refine ⟨?_, ?_, ?_, ?_⟩ <;>
    simp [chatLoop, headlessLoop, chatStep, headlessStep]

end Minerve
